import Mathlib

/-!
Shallow embedding of the enrollment/billing backend (`backend/main.py` and
`schemas.py`): the entity model, the record-store state, and the handlers
`create_enrollment`, `create_payment` and `get_subject`, together with proofs
about the billing reconciliation they implement.

Modelling conventions:
* Python floats are modelled as `Rat`; every property checked here is about
  exact sums and comparisons, never about float rounding.
* MongoDB object ids are modelled as `Nat`.  The raw string identifiers that
  arrive in request payloads are parsed by `objectId`, which models the
  `bson.ObjectId` constructor: parsing fails (the constructor raises) exactly
  when the string is not a numeral.
* Each collection is an association list `List (Nat × α)` in insertion order;
  `find_one` returns the first match, `update_one` rewrites the first match.
  The record-store module (`database.py`) is not among the sources; its
  `create_document` is modelled from the spec, section 4.2: create persists
  the record and returns a newly assigned unique identifier (here `nextId`).
* An uncaught Python exception surfaces as a 500 response, per FastAPI's
  default error handling.
-/

set_option maxRecDepth 100000

namespace Backend

/-- Subject document (`schemas.Subject`). -/
structure Subject where
  code : String
  title : String
  units : Rat
  fee_per_unit : Rat
  faculty_id : Option String
deriving DecidableEq

/-- Enrollment document (`schemas.Enrollment`); `status` ranges over
the literals enrolled, dropped, completed. -/
structure Enrollment where
  student_id : String
  subject_id : String
  semester : String
  status : String
deriving DecidableEq

/-- One line of a bill (`schemas.BillLine`). -/
structure BillLine where
  subject_id : String
  description : String
  amount : Rat
deriving DecidableEq

/-- Bill document (`schemas.Bill`); `status` ranges over unpaid, partial, paid. -/
structure Bill where
  student_id : String
  semester : String
  lines : List BillLine
  total : Rat
  paid : Rat
  status : String
deriving DecidableEq

/-- Persisted payment document (`main.create_payment` writes these fields;
the `paid_at` timestamp is omitted, no claim concerns it). -/
structure Payment where
  bill_id : String
  amount : Rat
  cashier_id : String
deriving DecidableEq

/-- Request body of POST /payments (`main.PaymentCreate`).  Note: `amount`
carries no positivity constraint, neither here nor in `schemas.Payment`. -/
structure PaymentCreate where
  bill_id : String
  amount : Rat
  cashier_id : String
deriving DecidableEq

/-- An HTTP error response: `HTTPException(status_code, detail)`, or the
generic 500 produced by an uncaught exception. -/
structure Err where
  status_code : Nat
  detail : String
deriving DecidableEq

/-- The database state: one association list per collection, plus the next
fresh identifier handed out by `create_document`. -/
structure Store where
  subjects : List (Nat × Subject)
  enrollments : List (Nat × Enrollment)
  bills : List (Nat × Bill)
  payments : List (Nat × Payment)
  nextId : Nat
deriving DecidableEq

/-- Models the `bson.ObjectId` constructor applied to a raw request string:
well-formed identifier strings are numerals, everything else raises. -/
def objectId (s : String) : Option Nat := s.toNat?

/-- Models `find_one` with an `_id` filter: first stored record carrying
the identifier. -/
def findById {α : Type} (l : List (Nat × α)) (i : Nat) : Option α :=
  (l.find? fun e => e.1 == i).map Prod.snd

/-- Models `update_one` with an `_id` filter: rewrite the first stored
record carrying the identifier, leave everything else in place. -/
def updateFirst {α : Type} (l : List (Nat × α)) (i : Nat) (f : α → α) : List (Nat × α) :=
  match l with
  | [] => []
  | e :: rest => if e.1 == i then (e.1, f e.2) :: rest else e :: updateFirst rest i f

/-- The Status Rule, the conditional expression repeated in
`create_enrollment` (line 144) and `create_payment` (lines 219 and 220). -/
def statusString (paid total : Rat) : String :=
  if paid ≥ total ∧ total > 0 then "paid"
  else if paid > 0 then "partial" else "unpaid"

/-- Subject resolution in `create_enrollment` lines 123 to 131: parse the
raw id (a raise is swallowed by the bare except), then look the subject up;
either failure yields `none`. -/
def subjectResolve (s : Store) (subject_id : String) : Option Subject :=
  match objectId subject_id with
  | none => none
  | some oid => findById s.subjects oid

/-- Fee computation of `create_enrollment` lines 122 to 131: `fee` starts
at 0 and becomes `units * fee_per_unit` only when the subject resolves. -/
def feeFor (s : Store) (subject_id : String) : Rat :=
  match subjectResolve s subject_id with
  | none => 0
  | some subject => subject.units * subject.fee_per_unit

/-- The duplicate-enrollment filter of `create_enrollment` lines 110 to 114:
equality on student, subject and semester; the stored status is not part of
the filter. -/
def enrollKeyMatches (enr : Enrollment) (e : Nat × Enrollment) : Bool :=
  e.2.student_id == enr.student_id && e.2.subject_id == enr.subject_id &&
    e.2.semester == enr.semester

/-- The bill filter of `create_enrollment` line 133: equality on student
and semester. -/
def billKeyMatches (student_id semester : String) (e : Nat × Bill) : Bool :=
  e.2.student_id == student_id && e.2.semester == semester

/-- The push mutation of `create_enrollment` line 142. -/
def pushLine (line : BillLine) (b : Bill) : Bill :=
  { b with lines := b.lines ++ [line] }

/-- The set mutation of `create_enrollment` line 145. -/
def setTotals (total : Rat) (status : String) (b : Bill) : Bill :=
  { b with total := total, status := status }

/-- The set mutation of `create_payment` line 221. -/
def setPayment (paid : Rat) (status : String) (b : Bill) : Bill :=
  { b with paid := paid, status := status }

/-- Persisting the enrollment record, `create_enrollment` line 118. -/
def enrollInsert (s : Store) (enr : Enrollment) : Store :=
  { s with enrollments := s.enrollments ++ [(s.nextId, enr)], nextId := s.nextId + 1 }

/-- The fresh bill created on line 135 when none exists for the student and
semester. -/
def blankBill (student_id semester : String) : Bill :=
  { student_id := student_id, semester := semester, lines := [], total := 0,
    paid := 0, status := "unpaid" }

/-- Lines 133 to 138: locate the bill for (student, semester); if absent,
create one and re-read it (the re-read returns the record just stored, whose
identifier is returned here directly). -/
def locateOrCreateBill (s : Store) (student_id semester : String) : Nat × Store :=
  match s.bills.find? (billKeyMatches student_id semester) with
  | some e => (e.1, s)
  | none =>
    (s.nextId,
     { s with bills := s.bills ++ [(s.nextId, blankBill student_id semester)],
              nextId := s.nextId + 1 })

/-- Lines 141 to 145: push the new line, re-read the bill, recompute `total`
as the sum of the stored line amounts, derive `status` from the re-read
`paid` and the new total, and persist both.  The `none` branch is the crash
(uncaught `AttributeError`) Python would hit if the re-read found nothing;
it is unreachable whenever the bill exists. -/
def appendLineAndRecompute (s : Store) (bid : Nat) (line : BillLine) : Except Err Unit × Store :=
  let s3 : Store := { s with bills := updateFirst s.bills bid (pushLine line) }
  match findById s3.bills bid with
  | none => (Except.error ⟨500, "Internal Server Error"⟩, s3)
  | some bill =>
    let total : Rat := (bill.lines.map BillLine.amount).sum
    (Except.ok (),
     { s3 with bills := updateFirst s3.bills bid (setTotals total (statusString bill.paid total)) })

/-- The bill line built on line 141. -/
def tuitionLine (s : Store) (enr : Enrollment) : BillLine :=
  ⟨enr.subject_id, "Tuition for subject", feeFor s enr.subject_id⟩

/-- POST /enrollments (`main.create_enrollment`, lines 108 to 147). -/
def create_enrollment (s : Store) (enr : Enrollment) : Except Err Nat × Store :=
  if s.enrollments.filter (enrollKeyMatches enr) ≠ [] then
    (Except.error ⟨400, "Already enrolled"⟩, s)
  else
    let s1 := enrollInsert s enr
    let lb := locateOrCreateBill s1 enr.student_id enr.semester
    let res := appendLineAndRecompute lb.2 lb.1 (tuitionLine s1 enr)
    match res.1 with
    | Except.ok _ => (Except.ok s.nextId, res.2)
    | Except.error e => (Except.error e, res.2)

/-- POST /payments (`main.create_payment`, lines 211 to 222).  A malformed
`bill_id` makes the `ObjectId` constructor on line 213 raise with no handler
in scope, so the request fails with the generic 500, not a 404. -/
def create_payment (s : Store) (p : PaymentCreate) : Except Err Nat × Store :=
  match objectId p.bill_id with
  | none => (Except.error ⟨500, "Internal Server Error"⟩, s)
  | some oid =>
    match findById s.bills oid with
    | none => (Except.error ⟨404, "Bill not found"⟩, s)
    | some bill =>
      let s1 : Store :=
        { s with payments := s.payments ++ [(s.nextId, ⟨p.bill_id, p.amount, p.cashier_id⟩)],
                 nextId := s.nextId + 1 }
      let paid : Rat := bill.paid + p.amount
      (Except.ok s.nextId,
       { s1 with bills := updateFirst s1.bills oid (setPayment paid (statusString paid bill.total)) })

/-- Response of GET /subjects/{subject_id}. -/
inductive SubjectResponse where
  | ok (doc : Subject)
  | err (status_code : Nat) (detail : String)
deriving DecidableEq

/-- GET /subjects/{subject_id} (`main.get_subject`, lines 96 to 105).  The
`HTTPException(404)` raised for an absent subject is raised inside the try
block, so the blanket `except Exception` catches it and replaces it with the
400 response: both an absent subject and a malformed id answer 400. -/
def get_subject (s : Store) (subject_id : String) : SubjectResponse :=
  match objectId subject_id with
  | none => SubjectResponse.err 400 "Invalid subject id"
  | some oid =>
    match findById s.subjects oid with
    | none => SubjectResponse.err 400 "Invalid subject id"
    | some doc => SubjectResponse.ok doc

/-- POST /subjects (`main.create_subject`, lines 81 to 84). -/
def create_subject (s : Store) (subject : Subject) : Except Err Nat × Store :=
  (Except.ok s.nextId,
   { s with subjects := s.subjects ++ [(s.nextId, subject)], nextId := s.nextId + 1 })

/-- One externally triggered state-changing request. -/
inductive Op where
  | newSubject (subject : Subject)
  | enroll (enr : Enrollment)
  | pay (p : PaymentCreate)
deriving DecidableEq

/-- The store after handling one request (a failed request leaves whatever
state the handler had already written; both handlers only fail before their
first write). -/
def applyOp (s : Store) (op : Op) : Store :=
  match op with
  | Op.newSubject subject => (create_subject s subject).2
  | Op.enroll enr => (create_enrollment s enr).2
  | Op.pay p => (create_payment s p).2

/-- The empty database. -/
def initialStore : Store := ⟨[], [], [], [], 1⟩

/-- The store reached by a sequence of requests against the empty database. -/
def runOps (ops : List Op) : Store := List.foldl applyOp initialStore ops

/-! Basic facts about the record-store primitives. -/

theorem findById_cons {α : Type} (e : Nat × α) (l : List (Nat × α)) (i : Nat) :
    findById (e :: l) i = if e.1 = i then some e.2 else findById l i := by
  by_cases h : e.1 = i <;> simp [findById, List.find?_cons, h]

theorem updateFirst_cons {α : Type} (e : Nat × α) (l : List (Nat × α)) (i : Nat) (f : α → α) :
    updateFirst (e :: l) i f = if e.1 = i then (e.1, f e.2) :: l else e :: updateFirst l i f := by
  by_cases h : e.1 = i <;> simp [updateFirst, h]

theorem mem_of_findById {α : Type} {l : List (Nat × α)} {i : Nat} {b : α}
    (h : findById l i = some b) : (i, b) ∈ l := by
  induction l with
  | nil => simp [findById] at h
  | cons e rest ih =>
    rw [findById_cons] at h
    by_cases he : e.1 = i
    · rw [if_pos he] at h
      cases h
      exact List.mem_cons.mpr (Or.inl (by rw [← he]))
    · rw [if_neg he] at h
      exact List.mem_cons_of_mem _ (ih h)

theorem findById_isSome_of_mem {α : Type} {l : List (Nat × α)} {i : Nat} {b : α}
    (h : (i, b) ∈ l) : ∃ c, findById l i = some c := by
  induction l with
  | nil => simp at h
  | cons e rest ih =>
    rw [findById_cons]
    by_cases he : e.1 = i
    · exact ⟨e.2, if_pos he⟩
    · rcases List.mem_cons.mp h with h | h
      · subst h
        simp at he
      · simpa [if_neg he] using ih h

theorem findById_of_mem_nodup {α : Type} {l : List (Nat × α)} {i : Nat} {b : α}
    (hnd : (l.map Prod.fst).Nodup) (h : (i, b) ∈ l) : findById l i = some b := by
  induction l with
  | nil => simp at h
  | cons e rest ih =>
    rw [findById_cons]
    rcases List.mem_cons.mp h with h | h
    · subst h
      simp
    · have he : e.1 ≠ i := by
        intro contra
        have : i ∈ rest.map Prod.fst := List.mem_map_of_mem Prod.fst h
        rw [List.map_cons, List.nodup_cons] at hnd
        exact hnd.1 (contra ▸ this)
      rw [if_neg he]
      rw [List.map_cons, List.nodup_cons] at hnd
      exact ih hnd.2 h

theorem findById_append {α : Type} (l m : List (Nat × α)) (i : Nat) :
    findById (l ++ m) i =
      match findById l i with
      | some b => some b
      | none => findById m i := by
  induction l with
  | nil => simp [findById]
  | cons e rest ih =>
    rw [List.cons_append, findById_cons, findById_cons]
    by_cases he : e.1 = i <;> simp [he, ih]

theorem findById_eq_none {α : Type} {l : List (Nat × α)} {i : Nat} :
    findById l i = none ↔ ∀ e ∈ l, e.1 ≠ i := by
  induction l with
  | nil => simp [findById]
  | cons e rest ih =>
    rw [findById_cons]
    by_cases he : e.1 = i <;> simp [he, ih]

theorem keys_updateFirst {α : Type} (l : List (Nat × α)) (i : Nat) (f : α → α) :
    (updateFirst l i f).map Prod.fst = l.map Prod.fst := by
  induction l with
  | nil => rfl
  | cons e rest ih =>
    by_cases he : e.1 = i <;> simp [updateFirst, he, ih]

theorem findById_updateFirst_self {α : Type} (l : List (Nat × α)) (i : Nat) (f : α → α) :
    findById (updateFirst l i f) i = (findById l i).map f := by
  induction l with
  | nil => rfl
  | cons e rest ih =>
    rw [updateFirst_cons]
    by_cases he : e.1 = i
    · rw [if_pos he, findById_cons, findById_cons, if_pos he]
      simp [he]
    · rw [if_neg he, findById_cons, findById_cons, if_neg he, if_neg he, ih]

theorem findById_updateFirst_ne {α : Type} (l : List (Nat × α)) (i j : Nat) (f : α → α)
    (h : j ≠ i) : findById (updateFirst l i f) j = findById l j := by
  induction l with
  | nil => rfl
  | cons e rest ih =>
    rw [updateFirst_cons]
    by_cases he : e.1 = i
    · have hej : ¬ e.1 = j := fun hc => h (by rw [← hc, he])
      rw [if_pos he, findById_cons, findById_cons, if_neg hej]
      simp [hej]
    · rw [if_neg he, findById_cons, findById_cons, ih]

theorem mem_updateFirst_weak {α : Type} {l : List (Nat × α)} {i : Nat} {f : α → α}
    {x : Nat × α} (h : x ∈ updateFirst l i f) :
    x ∈ l ∨ ∃ b, findById l i = some b ∧ x = (i, f b) := by
  induction l with
  | nil => simp [updateFirst] at h
  | cons e rest ih =>
    rw [updateFirst_cons] at h
    by_cases he : e.1 = i
    · rw [if_pos he] at h
      rcases List.mem_cons.mp h with h | h
      · right
        exact ⟨e.2, by rw [findById_cons, if_pos he], by rw [h, he]⟩
      · exact Or.inl (List.mem_cons_of_mem _ h)
    · rw [if_neg he] at h
      rcases List.mem_cons.mp h with h | h
      · exact Or.inl (h ▸ List.mem_cons_self e rest)
      · rcases ih h with h | ⟨b, hb, hx⟩
        · exact Or.inl (List.mem_cons_of_mem _ h)
        · exact Or.inr ⟨b, by rw [findById_cons, if_neg he, hb], hx⟩

theorem mem_updateFirst_nodup {α : Type} {l : List (Nat × α)} {i : Nat} {f : α → α}
    {x : Nat × α} (hnd : (l.map Prod.fst).Nodup) (h : x ∈ updateFirst l i f) :
    (∃ b, findById l i = some b ∧ x = (i, f b)) ∨ (x ∈ l ∧ x.1 ≠ i) := by
  induction l with
  | nil => simp [updateFirst] at h
  | cons e rest ih =>
    rw [List.map_cons, List.nodup_cons] at hnd
    rw [updateFirst_cons] at h
    by_cases he : e.1 = i
    · rw [if_pos he] at h
      rcases List.mem_cons.mp h with h | h
      · exact Or.inl ⟨e.2, by rw [findById_cons, if_pos he], by rw [h, he]⟩
      · refine Or.inr ⟨List.mem_cons_of_mem _ h, ?_⟩
        intro contra
        exact hnd.1 (he ▸ contra ▸ List.mem_map_of_mem Prod.fst h)
    · rw [if_neg he] at h
      rcases List.mem_cons.mp h with h | h
      · exact Or.inr ⟨h ▸ List.mem_cons_self e rest, h ▸ he⟩
      · rcases ih hnd.2 h with ⟨b, hb, hx⟩ | ⟨hmem, hne⟩
        · exact Or.inl ⟨b, by rw [findById_cons, if_neg he, hb], hx⟩
        · exact Or.inr ⟨List.mem_cons_of_mem _ hmem, hne⟩

theorem updateFirst_updateFirst {α : Type} (l : List (Nat × α)) (i : Nat) (f g : α → α) :
    updateFirst (updateFirst l i f) i g = updateFirst l i (fun b => g (f b)) := by
  induction l with
  | nil => rfl
  | cons e rest ih =>
    by_cases he : e.1 = i
    · simp [updateFirst_cons, he]
    · simp [updateFirst_cons, he, ih]

/-! Behavioural characterizations of the three handlers. -/

theorem create_enrollment_dup {s : Store} {enr : Enrollment}
    (h : s.enrollments.filter (enrollKeyMatches enr) ≠ []) :
    create_enrollment s enr = (Except.error ⟨400, "Already enrolled"⟩, s) := by
  rw [create_enrollment, if_pos h]

theorem appendLineAndRecompute_eq {s : Store} {bid : Nat} {line : BillLine} {b : Bill}
    (h : findById s.bills bid = some b) :
    appendLineAndRecompute s bid line =
      (Except.ok (),
       { s with bills := updateFirst s.bills bid (fun b0 =>
           setTotals (((pushLine line b).lines.map BillLine.amount).sum)
             (statusString (pushLine line b).paid (((pushLine line b).lines.map BillLine.amount).sum))
             (pushLine line b0)) }) := by
  have h1 : findById (updateFirst s.bills bid (pushLine line)) bid = some (pushLine line b) := by
    rw [findById_updateFirst_self, h]
    rfl
  simp only [appendLineAndRecompute, h1]
  rw [updateFirst_updateFirst]

theorem create_enrollment_found {s : Store} {enr : Enrollment} {e : Nat × Bill} {b : Bill}
    (hnd : s.enrollments.filter (enrollKeyMatches enr) = [])
    (hfound : s.bills.find? (billKeyMatches enr.student_id enr.semester) = some e)
    (hb : findById s.bills e.1 = some b) :
    create_enrollment s enr =
      (Except.ok s.nextId,
       { s with
           enrollments := s.enrollments ++ [(s.nextId, enr)],
           nextId := s.nextId + 1,
           bills := updateFirst s.bills e.1 (fun b0 =>
             setTotals (((pushLine (tuitionLine s enr) b).lines.map BillLine.amount).sum)
               (statusString (pushLine (tuitionLine s enr) b).paid
                 (((pushLine (tuitionLine s enr) b).lines.map BillLine.amount).sum))
               (pushLine (tuitionLine s enr) b0)) }) := by
  have hni : ¬ s.enrollments.filter (enrollKeyMatches enr) ≠ [] := by simp [hnd]
  have hloc : locateOrCreateBill (enrollInsert s enr) enr.student_id enr.semester
      = (e.1, enrollInsert s enr) := by
    rw [locateOrCreateBill, show (enrollInsert s enr).bills = s.bills from rfl, hfound]
  have hb1 : findById (enrollInsert s enr).bills e.1 = some b := hb
  rw [create_enrollment, if_neg hni]
  dsimp only
  rw [hloc]
  dsimp only
  rw [appendLineAndRecompute_eq hb1]
  rfl

theorem create_enrollment_notfound {s : Store} {enr : Enrollment} {c : Bill}
    (hnd : s.enrollments.filter (enrollKeyMatches enr) = [])
    (hnf : s.bills.find? (billKeyMatches enr.student_id enr.semester) = none)
    (hc : findById (s.bills ++ [(s.nextId + 1, blankBill enr.student_id enr.semester)])
            (s.nextId + 1) = some c) :
    create_enrollment s enr =
      (Except.ok s.nextId,
       { s with
           enrollments := s.enrollments ++ [(s.nextId, enr)],
           nextId := s.nextId + 1 + 1,
           bills := updateFirst
             (s.bills ++ [(s.nextId + 1, blankBill enr.student_id enr.semester)])
             (s.nextId + 1)
             (fun b0 =>
               setTotals (((pushLine (tuitionLine s enr) c).lines.map BillLine.amount).sum)
                 (statusString (pushLine (tuitionLine s enr) c).paid
                   (((pushLine (tuitionLine s enr) c).lines.map BillLine.amount).sum))
                 (pushLine (tuitionLine s enr) b0)) }) := by
  have hni : ¬ s.enrollments.filter (enrollKeyMatches enr) ≠ [] := by simp [hnd]
  have hloc : locateOrCreateBill (enrollInsert s enr) enr.student_id enr.semester
      = (s.nextId + 1,
         { enrollInsert s enr with
             bills := s.bills ++ [(s.nextId + 1, blankBill enr.student_id enr.semester)],
             nextId := s.nextId + 1 + 1 }) := by
    rw [locateOrCreateBill, show (enrollInsert s enr).bills = s.bills from rfl, hnf]
    rfl
  have hc1 : findById ({ enrollInsert s enr with
      bills := s.bills ++ [(s.nextId + 1, blankBill enr.student_id enr.semester)],
      nextId := s.nextId + 1 + 1 } : Store).bills (s.nextId + 1) = some c := hc
  rw [create_enrollment, if_neg hni]
  dsimp only
  rw [hloc]
  dsimp only
  rw [appendLineAndRecompute_eq hc1]
  rfl

theorem create_payment_ok {s : Store} {p : PaymentCreate} {oid : Nat} {bill : Bill}
    (hid : objectId p.bill_id = some oid) (hb : findById s.bills oid = some bill) :
    create_payment s p =
      (Except.ok s.nextId,
       { s with
           payments := s.payments ++ [(s.nextId, ⟨p.bill_id, p.amount, p.cashier_id⟩)],
           nextId := s.nextId + 1,
           bills := updateFirst s.bills oid
             (setPayment (bill.paid + p.amount)
               (statusString (bill.paid + p.amount) bill.total)) }) := by
  simp only [create_payment, hid, hb]

theorem create_payment_no_bill {s : Store} {p : PaymentCreate} {oid : Nat}
    (hid : objectId p.bill_id = some oid) (hb : findById s.bills oid = none) :
    create_payment s p = (Except.error ⟨404, "Bill not found"⟩, s) := by
  simp only [create_payment, hid, hb]

theorem create_payment_bad_id {s : Store} {p : PaymentCreate}
    (hid : objectId p.bill_id = none) :
    create_payment s p = (Except.error ⟨500, "Internal Server Error"⟩, s) := by
  simp only [create_payment, hid]

/-! The reconciliation invariant and its preservation. -/

/-- Two bill records never sharing the (student, semester) natural key. -/
def BillKeyDistinct (a b : Nat × Bill) : Prop :=
  ¬(a.2.student_id = b.2.student_id ∧ a.2.semester = b.2.semester)

/-- Invariant of every reachable store: bill identifiers are bounded by the
fresh-id counter and duplicate-free, bill natural keys are pairwise distinct,
and every bill carries a status derived by the Status Rule from its own paid
and total, and a total equal to the sum of its line amounts. -/
def Inv (s : Store) : Prop :=
  (∀ e ∈ s.bills, e.1 < s.nextId) ∧
  (s.bills.map Prod.fst).Nodup ∧
  s.bills.Pairwise BillKeyDistinct ∧
  (∀ e ∈ s.bills, e.2.status = statusString e.2.paid e.2.total ∧
      e.2.total = (e.2.lines.map BillLine.amount).sum)

theorem pairwise_billKey_updateFirst {l : List (Nat × Bill)} {i : Nat} {f : Bill → Bill}
    (hf : ∀ b, (f b).student_id = b.student_id ∧ (f b).semester = b.semester)
    (h : l.Pairwise BillKeyDistinct) : (updateFirst l i f).Pairwise BillKeyDistinct := by
  induction l with
  | nil => exact h
  | cons e rest ih =>
    rw [updateFirst_cons]
    rcases List.pairwise_cons.mp h with ⟨he, hrest⟩
    by_cases hei : e.1 = i
    · rw [if_pos hei]
      refine List.pairwise_cons.mpr ⟨?_, hrest⟩
      intro y hy hc
      refine he y hy ⟨?_, ?_⟩
      · rw [← (hf e.2).1]
        exact hc.1
      · rw [← (hf e.2).2]
        exact hc.2
    · rw [if_neg hei]
      refine List.pairwise_cons.mpr ⟨?_, ih hrest⟩
      intro y hy
      rcases mem_updateFirst_weak hy with hy' | ⟨b, hb, rfl⟩
      · exact he y hy'
      · intro hc
        refine he (i, b) (mem_of_findById hb) ⟨?_, ?_⟩
        · rw [← (hf b).1]
          exact hc.1
        · rw [← (hf b).2]
          exact hc.2

theorem inv_bills_updateFirst {l : List (Nat × Bill)} {i : Nat} {f : Bill → Bill}
    {n n' : Nat} (hn : n ≤ n')
    (hfkey : ∀ b, (f b).student_id = b.student_id ∧ (f b).semester = b.semester)
    (hfresh : ∀ e ∈ l, e.1 < n)
    (hnd : (l.map Prod.fst).Nodup)
    (hpw : l.Pairwise BillKeyDistinct)
    (hst : ∀ e ∈ l, e.2.status = statusString e.2.paid e.2.total ∧
        e.2.total = (e.2.lines.map BillLine.amount).sum)
    (hf : ∀ b, findById l i = some b →
        (f b).status = statusString (f b).paid (f b).total ∧
        (f b).total = ((f b).lines.map BillLine.amount).sum) :
    (∀ e ∈ updateFirst l i f, e.1 < n') ∧
    ((updateFirst l i f).map Prod.fst).Nodup ∧
    (updateFirst l i f).Pairwise BillKeyDistinct ∧
    (∀ e ∈ updateFirst l i f, e.2.status = statusString e.2.paid e.2.total ∧
        e.2.total = (e.2.lines.map BillLine.amount).sum) := by
  refine ⟨?_, ?_, ?_, ?_⟩
  · intro e he
    rcases mem_updateFirst_weak he with he' | ⟨b, hb, rfl⟩
    · exact Nat.lt_of_lt_of_le (hfresh e he') hn
    · exact Nat.lt_of_lt_of_le (hfresh (i, b) (mem_of_findById hb)) hn
  · rw [keys_updateFirst]
    exact hnd
  · exact pairwise_billKey_updateFirst hfkey hpw
  · intro e he
    rcases mem_updateFirst_nodup hnd he with ⟨b, hb, rfl⟩ | ⟨he', _⟩
    · exact hf b hb
    · exact hst e he'

theorem inv_create_subject {s : Store} (subject : Subject) (h : Inv s) :
    Inv (create_subject s subject).2 := by
  obtain ⟨h1, h2, h3, h4⟩ := h
  exact ⟨fun e he => Nat.lt_succ_of_lt (h1 e he), h2, h3, h4⟩

theorem inv_create_payment {s : Store} (p : PaymentCreate) (h : Inv s) :
    Inv (create_payment s p).2 := by
  obtain ⟨h1, h2, h3, h4⟩ := h
  rcases hid : objectId p.bill_id with _ | oid
  · rw [create_payment_bad_id hid]
    exact ⟨h1, h2, h3, h4⟩
  rcases hb : findById s.bills oid with _ | bill
  · rw [create_payment_no_bill hid hb]
    exact ⟨h1, h2, h3, h4⟩
  rw [create_payment_ok hid hb]
  refine inv_bills_updateFirst (Nat.le_succ s.nextId) (fun b => ⟨rfl, rfl⟩) h1 h2 h3 h4 ?_
  intro b hb'
  rw [hb'] at hb
  injection hb with hbe
  constructor
  · rw [hbe]
    rfl
  · exact (h4 (oid, b) (mem_of_findById hb')).2

theorem inv_create_enrollment {s : Store} (enr : Enrollment) (h : Inv s) :
    Inv (create_enrollment s enr).2 := by
  obtain ⟨h1, h2, h3, h4⟩ := h
  by_cases hdup : s.enrollments.filter (enrollKeyMatches enr) = []
  · rcases hfind : s.bills.find? (billKeyMatches enr.student_id enr.semester) with _ | e
    · -- no bill yet: a blank one is appended, then receives the line and recompute
      have hfresh1 : findById s.bills (s.nextId + 1) = none :=
        findById_eq_none.mpr fun e he =>
          Nat.ne_of_lt (Nat.lt_succ_of_lt (h1 e he))
      have hc : findById (s.bills ++ [(s.nextId + 1, blankBill enr.student_id enr.semester)])
          (s.nextId + 1) = some (blankBill enr.student_id enr.semester) := by
        rw [findById_append, hfresh1, findById_cons]
        simp
      rw [create_enrollment_notfound hdup hfind hc]
      have hnotin : (s.nextId + 1) ∉ s.bills.map Prod.fst := by
        intro hmem
        rcases List.mem_map.mp hmem with ⟨e, he, hkey⟩
        exact Nat.ne_of_lt (Nat.lt_succ_of_lt (h1 e he)) hkey
      have hfresh2 : ∀ e ∈ s.bills ++ [(s.nextId + 1, blankBill enr.student_id enr.semester)],
          e.1 < s.nextId + 1 + 1 := by
        intro e he
        rcases List.mem_append.mp he with he | he
        · exact Nat.lt_succ_of_lt (Nat.lt_succ_of_lt (h1 e he))
        · rcases List.mem_singleton.mp he with rfl
          exact Nat.lt_succ_self _
      have hnd2 : ((s.bills ++ [(s.nextId + 1, blankBill enr.student_id enr.semester)]).map
          Prod.fst).Nodup := by
        rw [List.map_append]
        rw [List.nodup_append]
        refine ⟨h2, List.nodup_singleton _, ?_⟩
        intro a ha hb2
        rcases List.mem_singleton.mp hb2 with rfl
        exact hnotin ha
      have hpw2 : (s.bills ++ [(s.nextId + 1, blankBill enr.student_id enr.semester)]).Pairwise
          BillKeyDistinct := by
        rw [List.pairwise_append]
        refine ⟨h3, List.pairwise_singleton _ _, ?_⟩
        intro a ha y hy
        rcases List.mem_singleton.mp hy with rfl
        have := List.find?_eq_none.mp hfind a ha
        intro hc
        refine this ?_
        simp only [billKeyMatches, Bool.and_eq_true, beq_iff_eq]
        exact ⟨hc.1, hc.2⟩
      have hst2 : ∀ e ∈ s.bills ++ [(s.nextId + 1, blankBill enr.student_id enr.semester)],
          e.2.status = statusString e.2.paid e.2.total ∧
          e.2.total = (e.2.lines.map BillLine.amount).sum := by
        intro e he
        rcases List.mem_append.mp he with he | he
        · exact h4 e he
        · rcases List.mem_singleton.mp he with rfl
          constructor
          · simp [blankBill, statusString]
          · simp [blankBill]
      refine inv_bills_updateFirst (Nat.le_refl _) (fun b => ⟨rfl, rfl⟩) hfresh2 hnd2 hpw2 hst2 ?_
      intro b hb'
      rw [hb'] at hc
      cases hc
      exact ⟨rfl, rfl⟩
    · -- an existing bill receives the line and the recompute
      have hmem : e ∈ s.bills := List.mem_of_find?_eq_some hfind
      have hb : findById s.bills e.1 = some e.2 := findById_of_mem_nodup h2 hmem
      rw [create_enrollment_found hdup hfind hb]
      refine inv_bills_updateFirst (Nat.le_succ s.nextId) (fun b => ⟨rfl, rfl⟩) h1 h2 h3 h4 ?_
      intro b hb'
      rw [hb'] at hb
      cases hb
      exact ⟨rfl, rfl⟩
  · rw [create_enrollment_dup hdup]
    exact ⟨h1, h2, h3, h4⟩

theorem inv_applyOp {s : Store} (op : Op) (h : Inv s) : Inv (applyOp s op) := by
  cases op with
  | newSubject subject => exact inv_create_subject subject h
  | enroll enr => exact inv_create_enrollment enr h
  | pay p => exact inv_create_payment p h

theorem inv_initialStore : Inv initialStore := by
  refine ⟨?_, ?_, ?_, ?_⟩ <;> simp [initialStore]

theorem inv_foldl {s : Store} (ops : List Op) (h : Inv s) :
    Inv (List.foldl applyOp s ops) := by
  induction ops generalizing s with
  | nil => exact h
  | cons op rest ih => exact ih (inv_applyOp op h)

theorem inv_runOps (ops : List Op) : Inv (runOps ops) :=
  inv_foldl ops inv_initialStore

/-! The Status Rule stated the way the specification words it. -/

/-- The specification's Status Rule, as a predicate on a persisted bill:
`paid` iff fully covered with a positive total, else `partial` iff something
was paid, else `unpaid`; in particular a bill with zero total and zero paid
is unpaid and never reported paid. -/
def StatusRuleSpec (b : Bill) : Prop :=
  (b.status = "paid" ↔ (b.paid ≥ b.total ∧ b.total > 0)) ∧
  (b.status = "partial" ↔ (¬(b.paid ≥ b.total ∧ b.total > 0) ∧ b.paid > 0)) ∧
  (b.status = "unpaid" ↔ (¬(b.paid ≥ b.total ∧ b.total > 0) ∧ ¬ b.paid > 0)) ∧
  (b.total = 0 → b.paid = 0 → b.status = "unpaid" ∧ b.status ≠ "paid")

theorem statusRuleSpec_of_eq {b : Bill} (h : b.status = statusString b.paid b.total) :
    StatusRuleSpec b := by
  rw [statusString] at h
  by_cases h1 : b.paid ≥ b.total ∧ b.total > 0
  · rw [if_pos h1] at h
    refine ⟨⟨fun _ => h1, fun _ => h⟩, ?_, ?_, ?_⟩
    · constructor
      · intro hp
        rw [h] at hp
        exact absurd hp (by decide)
      · intro hp
        exact absurd h1 hp.1
    · constructor
      · intro hu
        rw [h] at hu
        exact absurd hu (by decide)
      · intro hu
        exact absurd h1 hu.1
    · intro ht _
      rw [ht] at h1
      exact absurd h1.2 (lt_irrefl 0)
  · rw [if_neg h1] at h
    by_cases h2 : b.paid > 0
    · rw [if_pos h2] at h
      refine ⟨?_, ⟨fun _ => ⟨h1, h2⟩, fun _ => h⟩, ?_, ?_⟩
      · constructor
        · intro hp
          rw [h] at hp
          exact absurd hp (by decide)
        · intro hp
          exact absurd hp h1
      · constructor
        · intro hu
          rw [h] at hu
          exact absurd hu (by decide)
        · intro hu
          exact absurd h2 hu.2
      · intro _ hp
        rw [hp] at h2
        exact absurd h2 (lt_irrefl 0)
    · rw [if_neg h2] at h
      refine ⟨?_, ?_, ⟨fun _ => ⟨h1, h2⟩, fun _ => h⟩, ?_⟩
      · constructor
        · intro hp
          rw [h] at hp
          exact absurd hp (by decide)
        · intro hp
          exact absurd hp h1
      · constructor
        · intro hpa
          rw [h] at hpa
          exact absurd hpa (by decide)
        · intro hpa
          exact absurd hpa.2 h2
      · intro _ _
        refine ⟨h, ?_⟩
        rw [h]
        decide

/-! Concrete fixtures used by the witness theorems. -/

/-- A catalog subject worth 3 units at 100 per unit (fee 300). -/
def wSubjectA : Subject := ⟨"CS101", "Algorithms", 3, 100, none⟩

/-- A catalog subject worth 4 units at 50 per unit (fee 200). -/
def wSubjectB : Subject := ⟨"CS102", "Databases", 4, 50, none⟩

/-- Enrollment of student stu1 in the subject stored under id 1. -/
def wEnr1 : Enrollment := ⟨"stu1", "1", "2025-1", "enrolled"⟩

/-- Enrollment of student stu1 in the subject stored under id 2. -/
def wEnr2 : Enrollment := ⟨"stu1", "2", "2025-1", "enrolled"⟩

/-- One subject created, one enrollment handled. -/
def wOps1 : List Op := [Op.newSubject wSubjectA, Op.enroll wEnr1]

/-- The bill stored under id 3 after `wOps1`. -/
def wBill1 : Bill := ⟨"stu1", "2025-1", [⟨"1", "Tuition for subject", 300⟩], 300, 0, "unpaid"⟩

/-- Two subjects, then two enrollments of the same student in the same
semester for the two different subjects. -/
def wOps2 : List Op := [Op.newSubject wSubjectA, Op.newSubject wSubjectB,
  Op.enroll wEnr1, Op.enroll wEnr2]

/-- The single accumulated bill stored under id 4 after `wOps2`. -/
def wBill2 : Bill := ⟨"stu1", "2025-1",
  [⟨"1", "Tuition for subject", 300⟩, ⟨"2", "Tuition for subject", 200⟩], 500, 0, "unpaid"⟩

/-- A store holding one enrollment record with status enrolled. -/
def wStoreDup : Store := ⟨[], [(1, ⟨"stu1", "s1", "2025-1", "enrolled"⟩)], [], [], 2⟩

/-- A store holding one enrollment record with status dropped. -/
def wStoreDropped : Store := ⟨[], [(1, ⟨"stu1", "s1", "2025-1", "dropped"⟩)], [], [], 2⟩

/-- A request re-enrolling the same (student, subject, semester) triple. -/
def wEnrDup : Enrollment := ⟨"stu1", "s1", "2025-1", "enrolled"⟩

/-- A store holding the bill `wBill1` under id 1. -/
def wStorePay : Store := ⟨[], [], [(1, wBill1)], [], 2⟩

/-- A payment of 300 against bill 1. -/
def wPay300 : PaymentCreate := ⟨"1", 300, "cash1"⟩

/-- A payment naming a well-formed bill id that matches no bill. -/
def wPayMissing : PaymentCreate := ⟨"9", 50, "cash1"⟩

/-- A payment whose bill id is malformed. -/
def wPayBad : PaymentCreate := ⟨"xyz", 50, "cash1"⟩

/-- An enrollment request whose subject id is malformed, so resolution
raises and the fee falls back to zero. -/
def wEnrBad : Enrollment := ⟨"stu9", "zzz", "2025-1", "enrolled"⟩

/-! Claim theorems. -/

/-- C1: after every successful reconciliation step (any run of requests
against the empty store; every prefix of a run is itself a run), each
persisted bill's status satisfies the Status Rule with respect to the bill's
own persisted paid and total, which are exactly the values the status was
computed from in the sequential model; in particular a bill with zero total
and zero paid is unpaid, never paid. -/
theorem spec_c1_status_rule (ops : List Op) :
    ∀ e ∈ (runOps ops).bills, StatusRuleSpec e.2 :=
  fun e he => statusRuleSpec_of_eq (((inv_runOps ops).2.2.2 e he).1)

theorem spec_c1_status_rule_witness :
    (3, wBill1) ∈ (runOps wOps1).bills ∧ StatusRuleSpec wBill1 :=
  ⟨of_decide_eq_true (by with_unfolding_all rfl),
   spec_c1_status_rule wOps1 (3, wBill1) (of_decide_eq_true (by with_unfolding_all rfl))⟩

/-- C2: after every successful reconciliation step, each persisted bill's
total equals the sum of the amounts of its lines. -/
theorem spec_c2_total_is_sum (ops : List Op) :
    ∀ e ∈ (runOps ops).bills, e.2.total = (e.2.lines.map BillLine.amount).sum :=
  fun e he => ((inv_runOps ops).2.2.2 e he).2

theorem spec_c2_total_is_sum_witness :
    (4, wBill2) ∈ (runOps wOps2).bills ∧
    wBill2.total = (wBill2.lines.map BillLine.amount).sum :=
  ⟨of_decide_eq_true (by with_unfolding_all rfl),
   spec_c2_total_is_sum wOps2 (4, wBill2) (of_decide_eq_true (by with_unfolding_all rfl))⟩

/-- C3: when some stored enrollment already carries the request's
(student, subject, semester) triple, the handler answers 400 Already
enrolled and returns the store unchanged: nothing is persisted, no bill is
touched. -/
theorem spec_c3_duplicate_rejected (s : Store) (enr : Enrollment)
    (h : ∃ e ∈ s.enrollments, e.2.student_id = enr.student_id ∧
      e.2.subject_id = enr.subject_id ∧ e.2.semester = enr.semester) :
    create_enrollment s enr = (Except.error ⟨400, "Already enrolled"⟩, s) := by
  apply create_enrollment_dup
  rcases h with ⟨e, he, h1, h2, h3⟩
  intro hfil
  have hm : e ∈ s.enrollments.filter (enrollKeyMatches enr) :=
    List.mem_filter.mpr ⟨he, by simp [enrollKeyMatches, h1, h2, h3]⟩
  rw [hfil] at hm
  simp at hm

theorem spec_c3_duplicate_rejected_witness :
    ((1, wEnrDup) ∈ wStoreDup.enrollments) ∧
    create_enrollment wStoreDup wEnrDup = (Except.error ⟨400, "Already enrolled"⟩, wStoreDup) :=
  ⟨of_decide_eq_true (by with_unfolding_all rfl),
   spec_c3_duplicate_rejected wStoreDup wEnrDup
     ⟨(1, wEnrDup), of_decide_eq_true (by with_unfolding_all rfl), rfl, rfl, rfl⟩⟩

/-- C10: the duplicate check filters on the triple only and never consults
the stored enrollment's status: a stored enrollment with status dropped or
completed still makes the handler reject the triple with 400 and leave the
store unchanged. -/
theorem spec_c10_status_ignored (s : Store) (enr : Enrollment) (e : Nat × Enrollment)
    (he : e ∈ s.enrollments)
    (h1 : e.2.student_id = enr.student_id) (h2 : e.2.subject_id = enr.subject_id)
    (h3 : e.2.semester = enr.semester)
    (_hst : e.2.status = "dropped" ∨ e.2.status = "completed") :
    create_enrollment s enr = (Except.error ⟨400, "Already enrolled"⟩, s) := by
  apply create_enrollment_dup
  intro hfil
  have hm : e ∈ s.enrollments.filter (enrollKeyMatches enr) :=
    List.mem_filter.mpr ⟨he, by simp [enrollKeyMatches, h1, h2, h3]⟩
  rw [hfil] at hm
  simp at hm

theorem spec_c10_status_ignored_witness :
    ((1, (⟨"stu1", "s1", "2025-1", "dropped"⟩ : Enrollment)) ∈ wStoreDropped.enrollments) ∧
    create_enrollment wStoreDropped wEnrDup =
      (Except.error ⟨400, "Already enrolled"⟩, wStoreDropped) :=
  ⟨of_decide_eq_true (by with_unfolding_all rfl),
   spec_c10_status_ignored wStoreDropped wEnrDup
     (1, ⟨"stu1", "s1", "2025-1", "dropped"⟩)
     (of_decide_eq_true (by with_unfolding_all rfl)) rfl rfl rfl (Or.inl rfl)⟩

/-- C4: when the bill resolves, recording a payment persists the payment
record, succeeds with the new identifier, and rewrites the bill to carry
paid = snapshot paid + amount and a status derived by the Status Rule from
that new paid and the snapshot's total, the total itself being left
unchanged. -/
theorem spec_c4_payment_reconcile (s : Store) (p : PaymentCreate) (oid : Nat) (bill : Bill)
    (hid : objectId p.bill_id = some oid) (hb : findById s.bills oid = some bill) :
    (create_payment s p).1 = Except.ok s.nextId ∧
    findById (create_payment s p).2.bills oid =
      some { bill with paid := bill.paid + p.amount,
                       status := statusString (bill.paid + p.amount) bill.total } ∧
    (create_payment s p).2.payments =
      s.payments ++ [(s.nextId, ⟨p.bill_id, p.amount, p.cashier_id⟩)] := by
  rw [create_payment_ok hid hb]
  refine ⟨rfl, ?_, rfl⟩
  dsimp only
  rw [findById_updateFirst_self, hb]
  rfl

theorem spec_c4_payment_reconcile_witness :
    (objectId wPay300.bill_id = some 1) ∧
    (findById wStorePay.bills 1 = some wBill1) ∧
    ((create_payment wStorePay wPay300).1 = Except.ok wStorePay.nextId ∧
     findById (create_payment wStorePay wPay300).2.bills 1 =
       some { wBill1 with paid := wBill1.paid + wPay300.amount,
                          status := statusString (wBill1.paid + wPay300.amount) wBill1.total } ∧
     (create_payment wStorePay wPay300).2.payments =
       wStorePay.payments ++ [(wStorePay.nextId, ⟨wPay300.bill_id, wPay300.amount, wPay300.cashier_id⟩)]) ∧
    wBill1.paid + wPay300.amount = 300 ∧
    statusString (wBill1.paid + wPay300.amount) wBill1.total = "paid" :=
  ⟨by with_unfolding_all rfl, by with_unfolding_all rfl,
   spec_c4_payment_reconcile wStorePay wPay300 1 wBill1
     (by with_unfolding_all rfl) (by with_unfolding_all rfl),
   by with_unfolding_all rfl, by with_unfolding_all rfl⟩

/-- C6: in every run, no two stored bills share the (student, semester)
natural key, and the concrete scenario of two sequential enrollments of the
same student in the same semester for two different subjects ends with one
bill carrying two lines, not two bills. -/
theorem spec_c6_one_bill_per_key :
    (∀ ops : List Op, (runOps ops).bills.Pairwise BillKeyDistinct) ∧
    (runOps wOps2).bills.length = 1 ∧
    ((runOps wOps2).bills.map fun e => e.2.lines.length) = [2] :=
  ⟨fun ops => (inv_runOps ops).2.2.1,
   of_decide_eq_true (by with_unfolding_all rfl),
   of_decide_eq_true (by with_unfolding_all rfl)⟩

/-- C7, counterexample: a payment request whose bill id is malformed does
not resolve to an existing bill, yet the handler does not answer 404 Bill
not found: the `ObjectId` constructor raises with no handler in scope, so
the request dies with the generic 500. -/
theorem spec_c7_counterexample :
    objectId wPayBad.bill_id = none ∧
    create_payment initialStore wPayBad =
      (Except.error ⟨500, "Internal Server Error"⟩, initialStore) ∧
    (⟨500, "Internal Server Error"⟩ : Err) ≠ ⟨404, "Bill not found"⟩ :=
  ⟨by with_unfolding_all rfl, by with_unfolding_all rfl,
   of_decide_eq_true (by with_unfolding_all rfl)⟩

/-- C7, amended: a payment whose bill id is well formed but matches no
stored bill fails with 404 Bill not found before any write, leaving the
store unchanged; a payment whose bill id is malformed fails with the
generic 500 of an unhandled exception, also before any write and with the
store unchanged. -/
theorem spec_c7_amended :
    (∀ (s : Store) (p : PaymentCreate) (oid : Nat),
      objectId p.bill_id = some oid → findById s.bills oid = none →
      create_payment s p = (Except.error ⟨404, "Bill not found"⟩, s)) ∧
    (∀ (s : Store) (p : PaymentCreate),
      objectId p.bill_id = none →
      create_payment s p = (Except.error ⟨500, "Internal Server Error"⟩, s)) :=
  ⟨fun _ _ _ hid hb => create_payment_no_bill hid hb,
   fun _ _ hid => create_payment_bad_id hid⟩

theorem spec_c7_amended_witness :
    (objectId wPayMissing.bill_id = some 9 ∧
     findById initialStore.bills 9 = none ∧
     create_payment initialStore wPayMissing =
       (Except.error ⟨404, "Bill not found"⟩, initialStore)) ∧
    (objectId wPayBad.bill_id = none ∧
     create_payment initialStore wPayBad =
       (Except.error ⟨500, "Internal Server Error"⟩, initialStore)) :=
  ⟨⟨by with_unfolding_all rfl, by with_unfolding_all rfl,
    spec_c7_amended.1 initialStore wPayMissing 9
      (by with_unfolding_all rfl) (by with_unfolding_all rfl)⟩,
   ⟨by with_unfolding_all rfl,
    spec_c7_amended.2 initialStore wPayBad (by with_unfolding_all rfl)⟩⟩

/-- C5: with no duplicate in the way, enrollment always succeeds and appends
to the student's bill a line whose amount is the computed fee: zero whenever
the subject fails to resolve (absent, or malformed id making the lookup
raise), and units times fee per unit when it resolves. -/
theorem spec_c5_fee_fallback (s : Store) (enr : Enrollment)
    (hnd : s.enrollments.filter (enrollKeyMatches enr) = []) :
    ∃ s' bid b,
      create_enrollment s enr = (Except.ok s.nextId, s') ∧
      findById s'.bills bid = some b ∧
      b.lines.getLast? = some (tuitionLine s enr) ∧
      (subjectResolve s enr.subject_id = none → (tuitionLine s enr).amount = 0) ∧
      (∀ subject, subjectResolve s enr.subject_id = some subject →
        (tuitionLine s enr).amount = subject.units * subject.fee_per_unit) := by
  rcases hfind : s.bills.find? (billKeyMatches enr.student_id enr.semester) with _ | e
  · rcases hex : findById (s.bills ++ [(s.nextId + 1, blankBill enr.student_id enr.semester)])
        (s.nextId + 1) with _ | c
    · rw [findById_eq_none] at hex
      exact absurd rfl
        (hex (s.nextId + 1, blankBill enr.student_id enr.semester)
          (List.mem_append_right _ (List.mem_singleton_self _)))
    · have hfb : findById (create_enrollment s enr).2.bills (s.nextId + 1) =
          some (setTotals (((pushLine (tuitionLine s enr) c).lines.map BillLine.amount).sum)
            (statusString (pushLine (tuitionLine s enr) c).paid
              (((pushLine (tuitionLine s enr) c).lines.map BillLine.amount).sum))
            (pushLine (tuitionLine s enr) c)) := by
        rw [create_enrollment_notfound hnd hfind hex]
        dsimp only
        rw [findById_updateFirst_self, hex]
        rfl
      refine ⟨(create_enrollment s enr).2, s.nextId + 1, _, ?_, hfb, ?_, ?_, ?_⟩
      · rw [create_enrollment_notfound hnd hfind hex]
      · show (c.lines ++ [tuitionLine s enr]).getLast? = some (tuitionLine s enr)
        exact List.getLast?_concat _
      · intro h
        simp [tuitionLine, feeFor, h]
      · intro subject h
        simp [tuitionLine, feeFor, h]
  · rcases findById_isSome_of_mem
        (show (e.1, e.2) ∈ s.bills from List.mem_of_find?_eq_some hfind) with ⟨c, hc⟩
    have hfb : findById (create_enrollment s enr).2.bills e.1 =
        some (setTotals (((pushLine (tuitionLine s enr) c).lines.map BillLine.amount).sum)
          (statusString (pushLine (tuitionLine s enr) c).paid
            (((pushLine (tuitionLine s enr) c).lines.map BillLine.amount).sum))
          (pushLine (tuitionLine s enr) c)) := by
      rw [create_enrollment_found hnd hfind hc]
      dsimp only
      rw [findById_updateFirst_self, hc]
      rfl
    refine ⟨(create_enrollment s enr).2, e.1, _, ?_, hfb, ?_, ?_, ?_⟩
    · rw [create_enrollment_found hnd hfind hc]
    · show (c.lines ++ [tuitionLine s enr]).getLast? = some (tuitionLine s enr)
      exact List.getLast?_concat _
    · intro h
      simp [tuitionLine, feeFor, h]
    · intro subject h
      simp [tuitionLine, feeFor, h]

theorem spec_c5_fee_fallback_witness :
    (initialStore.enrollments.filter (enrollKeyMatches wEnrBad) = []) ∧
    subjectResolve initialStore wEnrBad.subject_id = none ∧
    (tuitionLine initialStore wEnrBad).amount = 0 ∧
    (∃ s' bid b,
      create_enrollment initialStore wEnrBad = (Except.ok initialStore.nextId, s') ∧
      findById s'.bills bid = some b ∧
      b.lines.getLast? = some (tuitionLine initialStore wEnrBad) ∧
      (subjectResolve initialStore wEnrBad.subject_id = none →
        (tuitionLine initialStore wEnrBad).amount = 0) ∧
      (∀ subject, subjectResolve initialStore wEnrBad.subject_id = some subject →
        (tuitionLine initialStore wEnrBad).amount = subject.units * subject.fee_per_unit)) :=
  ⟨by with_unfolding_all rfl, by with_unfolding_all rfl, by with_unfolding_all rfl,
   spec_c5_fee_fallback initialStore wEnrBad (by with_unfolding_all rfl)⟩

/-- Helper for the amended C8: enrollment reconciliation never changes any
existing bill's paid amount, and a bill it freshly creates starts with
paid equal to zero. -/
theorem billPaid_create_enrollment (s : Store) (enr : Enrollment) (i : Nat) :
    (findById (create_enrollment s enr).2.bills i).map Bill.paid
      = (findById s.bills i).map Bill.paid ∨
    (findById s.bills i = none ∧
     (findById (create_enrollment s enr).2.bills i).map Bill.paid = some 0) := by
  by_cases hdup : s.enrollments.filter (enrollKeyMatches enr) = []
  · rcases hfind : s.bills.find? (billKeyMatches enr.student_id enr.semester) with _ | e
    · rcases hex : findById (s.bills ++ [(s.nextId + 1, blankBill enr.student_id enr.semester)])
          (s.nextId + 1) with _ | c
      · rw [findById_eq_none] at hex
        exact absurd rfl
          (hex (s.nextId + 1, blankBill enr.student_id enr.semester)
            (List.mem_append_right _ (List.mem_singleton_self _)))
      · rw [create_enrollment_notfound hdup hfind hex]
        dsimp only
        by_cases hi : i = s.nextId + 1
        · subst hi
          rw [findById_updateFirst_self, hex]
          rcases hfi : findById s.bills (s.nextId + 1) with _ | x
          · right
            refine ⟨rfl, ?_⟩
            have hcb : c = blankBill enr.student_id enr.semester := by
              rw [findById_append, hfi] at hex
              dsimp only at hex
              rw [findById_cons, if_pos rfl] at hex
              injection hex with hex
              exact hex.symm
            rw [hcb]
            rfl
          · left
            have hcx : c = x := by
              rw [findById_append, hfi] at hex
              dsimp only at hex
              injection hex with hex
              exact hex.symm
            rw [hcx]
            rfl
        · rw [findById_updateFirst_ne _ _ _ _ hi, findById_append]
          left
          rcases hfi : findById s.bills i with _ | x
          · rw [findById_cons, if_neg (fun hc => hi hc.symm)]
            rfl
          · rfl
    · rcases findById_isSome_of_mem
          (show (e.1, e.2) ∈ s.bills from List.mem_of_find?_eq_some hfind) with ⟨c, hc⟩
      rw [create_enrollment_found hdup hfind hc]
      dsimp only
      left
      by_cases hi : i = e.1
      · subst hi
        rw [findById_updateFirst_self, hc]
        rfl
      · rw [findById_updateFirst_ne _ _ _ _ hi]
  · rw [create_enrollment_dup hdup]
    left
    rfl

/-- A bill with total 300 of which 100 is already paid. -/
def c8Bill : Bill := ⟨"stu1", "2025-1", [⟨"1", "Tuition for subject", 300⟩], 300, 100, "partial"⟩

/-- A store holding `c8Bill` under id 1. -/
def c8Store : Store := ⟨[], [], [(1, c8Bill)], [], 2⟩

/-- A payment of -50 against bill 1. -/
def c8Pay : PaymentCreate := ⟨"1", -50, "cash1"⟩

/-- C8, counterexample: a payment with the negative amount -50 is accepted
(no validation rejects it) and the bill's paid drops from 100 to 50, so
paid is not monotonically non-decreasing. -/
theorem spec_c8_counterexample :
    (create_payment c8Store c8Pay).1 = Except.ok 2 ∧
    findById (create_payment c8Store c8Pay).2.bills 1 =
      some { c8Bill with paid := 50, status := "partial" } ∧
    (50 : Rat) < c8Bill.paid :=
  ⟨by with_unfolding_all rfl, by with_unfolding_all rfl,
   of_decide_eq_true (by with_unfolding_all rfl)⟩

/-- C8, amended: payment amounts are not validated, so a payment of any
amount, positive or not, is accepted whenever its bill resolves, and the
bill's paid moves by exactly that amount (hence paid decreases under a
negative amount and is non-decreasing only while amounts are non-negative);
a bill starts with paid equal to zero when enrollment creates it, and
enrollment reconciliation never changes paid. -/
theorem spec_c8_amended :
    (∀ (s : Store) (p : PaymentCreate) (oid : Nat) (bill : Bill),
      objectId p.bill_id = some oid → findById s.bills oid = some bill →
      (create_payment s p).1 = Except.ok s.nextId ∧
      findById (create_payment s p).2.bills oid =
        some { bill with paid := bill.paid + p.amount,
                         status := statusString (bill.paid + p.amount) bill.total }) ∧
    (∀ (s : Store) (enr : Enrollment) (i : Nat),
      (findById (create_enrollment s enr).2.bills i).map Bill.paid
        = (findById s.bills i).map Bill.paid ∨
      (findById s.bills i = none ∧
       (findById (create_enrollment s enr).2.bills i).map Bill.paid = some 0)) := by
  constructor
  · intro s p oid bill hid hb
    rw [create_payment_ok hid hb]
    refine ⟨rfl, ?_⟩
    dsimp only
    rw [findById_updateFirst_self, hb]
    rfl
  · intro s enr i
    exact billPaid_create_enrollment s enr i

theorem spec_c8_amended_witness :
    (objectId c8Pay.bill_id = some 1 ∧
     findById c8Store.bills 1 = some c8Bill ∧
     ((create_payment c8Store c8Pay).1 = Except.ok c8Store.nextId ∧
      findById (create_payment c8Store c8Pay).2.bills 1 =
        some { c8Bill with paid := c8Bill.paid + c8Pay.amount,
                           status := statusString (c8Bill.paid + c8Pay.amount) c8Bill.total })) ∧
    ((findById (create_enrollment initialStore wEnrBad).2.bills 2).map Bill.paid
       = (findById initialStore.bills 2).map Bill.paid ∨
     (findById initialStore.bills 2 = none ∧
      (findById (create_enrollment initialStore wEnrBad).2.bills 2).map Bill.paid = some 0)) :=
  ⟨⟨by with_unfolding_all rfl, by with_unfolding_all rfl,
    spec_c8_amended.1 c8Store c8Pay 1 c8Bill
      (by with_unfolding_all rfl) (by with_unfolding_all rfl)⟩,
   spec_c8_amended.2 initialStore wEnrBad 2⟩

/-- A store holding one subject under id 1, so that id 7 is well formed but
matches nothing. -/
def c9Store : Store := ⟨[(1, wSubjectA)], [], [], [], 2⟩

/-- The well-formed identifier of no stored subject. -/
def c9AbsentId : String := "7"

/-- A malformed identifier, on which the `ObjectId` constructor raises. -/
def c9BadId : String := "zzz"

/-- C9, the slip in the code: the 404 raised for an absent subject is raised
inside the try block, so the blanket `except Exception` catches it and
answers 400 Invalid subject id — the same response a malformed identifier
gets.  The two failure modes the claim requires to be distinguished are
therefore indistinguishable to the caller. -/
theorem spec_c9_bug :
    objectId c9AbsentId = some 7 ∧
    findById c9Store.subjects 7 = none ∧
    get_subject c9Store c9AbsentId = SubjectResponse.err 400 "Invalid subject id" ∧
    objectId c9BadId = none ∧
    get_subject c9Store c9BadId = SubjectResponse.err 400 "Invalid subject id" :=
  ⟨by with_unfolding_all rfl, by with_unfolding_all rfl, by with_unfolding_all rfl,
   by with_unfolding_all rfl, by with_unfolding_all rfl⟩

end Backend
